import Mathlib

/-!
The go-api service: handlers, request logger, router wiring and start-up.

A shallow embedding of `handler.go`, `logger.go` and `app.go`.

* Go `int`/`int64` values are `Int` (no arithmetic that could wrap occurs in these files, apart
  from the latency division, which is modelled on `Int`).
* A `*gin.Context` is the record `Context`; a handler maps a context and a world to an `Outcome`
  (it returned, or it panicked).
* Everything the handlers reach outside this package (database/sql, the clock, encoding/json
  decoding of a request body) and the `App` methods declared in other files of the package
  (`HashPassword`, `CheckPassword`, `GenerateJWT`) are fields of `Deps`, state-passing functions
  over an arbitrary state `σ`.
* `World.calls` is a ghost trace: each primitive appends the call it makes, so that statements
  such as "the store is never queried" can be written down.
-/

namespace GoApi

/-! ## Values -/

/-- Go error values as the handlers see them: the sentinel `sql.ErrNoRows`, which handler.go
compares by identity, and any other error with its message. -/
inductive GoError where
  | ErrNoRows
  | other (msg : String)
  deriving DecidableEq, Repr

/-- The text of `err.Error()`. -/
def GoError.Error : GoError → String
  | .ErrNoRows => "sql: no rows in result set"
  | .other msg => msg

/-- JSON scalar values that occur in the bodies and log lines of this service. -/
inductive JVal where
  | str (s : String)
  | int (n : Int)
  deriving DecidableEq, Repr

/-- A `gin.H` literal, or a marshalled JSON object: keys with their values. -/
abbrev H := List (String × JVal)

/-- Arguments bound to the `?` placeholders of a SQL statement. -/
inductive SqlVal where
  | int (n : Int)
  | str (s : String)
  deriving DecidableEq, Repr

/-- Modelled from the spec: the declaration of the `User` record type (another file of the
package). Its fields are those `GetUserByID` scans into (`ID`, `Username`, `Email`,
`CreatedAt`), the UserRecord of the spec. `CreatedAt` is a time, kept as nanoseconds. -/
structure User where
  ID : Int
  Username : String
  Email : String
  CreatedAt : Int
  deriving DecidableEq, Repr

/-- What a handler hands to `c.JSON`: a `gin.H` literal or a user record. -/
inductive Body where
  | h (o : H)
  | user (u : User)
  deriving DecidableEq, Repr

/-- Dynamic values stored in the context's `Keys` (Go `any`): only a value of dynamic type
`int` passes the type assertion `.(int)`. -/
inductive CtxVal where
  | int (n : Int)
  | int64 (n : Int)
  | str (s : String)
  | nil
  deriving DecidableEq, Repr

/-! ## HTTP request, response writer, gin context -/

/-- The parts of `*http.Request` the code reads. `Header` maps a canonical header name to its
values; `Body` is the raw body. -/
structure Request where
  Method : String
  Path : String
  Header : List (String × List String)
  Body : String
  RemoteAddr : String
  deriving DecidableEq, Repr

/-- Embeds `http.Header.Get`: the first value under the key, the empty string when there is none. The
three keys read by the logger are already in canonical form. -/
def Request.HeaderGet (r : Request) (key : String) : String :=
  match r.Header.lookup key with
  | some (v :: _) => v
  | _ => ""

/-- Embeds `Request.UserAgent()`. -/
def Request.UserAgent (r : Request) : String := r.HeaderGet "User-Agent"

/-- The response writer of gin: current status, whether the header went out, bodies written. -/
structure ResponseWriter where
  status : Int
  written : Bool
  body : List Body
  deriving DecidableEq, Repr

/-- The record behind `*gin.Context`. -/
structure Context where
  Request : Request
  Keys : List (String × CtxVal)
  Writer : ResponseWriter
  deriving DecidableEq, Repr

def StatusOK : Int := 200
def StatusCreated : Int := 201
def StatusBadRequest : Int := 400
def StatusUnauthorized : Int := 401
def StatusNotFound : Int := 404
def StatusInternalServerError : Int := 500

/-- The writer of a context no handler has touched yet (gin's default status is 200). -/
def freshWriter : ResponseWriter := { status := 200, written := false, body := [] }

/-- The context gin builds for a request, with the keys earlier middleware attached. -/
def newContext (r : Request) (keys : List (String × CtxVal)) : Context :=
  { Request := r, Keys := keys, Writer := freshWriter }

/-- Embeds `c.Get(key)`: the value and whether it exists, as an `Option`. -/
def Context.Get (c : Context) (key : String) : Option CtxVal := c.Keys.lookup key

/-- gin's `responseWriter.WriteHeader`: the status changes only while nothing is written. -/
def ResponseWriter.WriteHeader (w : ResponseWriter) (code : Int) : ResponseWriter :=
  if code > 0 ∧ w.status ≠ code then
    if w.written then w else { w with status := code }
  else w

/-- gin's `bodyAllowedForStatus`. -/
def bodyAllowedForStatus (status : Int) : Bool :=
  if 100 ≤ status ∧ status ≤ 199 then false
  else if status = 204 then false
  else if status = 304 then false
  else true

/-- Embeds `c.JSON(code, obj)`: set the status, then write the body. -/
def Context.JSON (c : Context) (code : Int) (obj : Body) : Context :=
  let w := c.Writer.WriteHeader code
  if bodyAllowedForStatus code then
    { c with Writer := { w with written := true, body := w.body ++ [obj] } }
  else
    { c with Writer := { w with written := true } }

/-- The response a client receives: final status and the bodies written. -/
def Context.response (c : Context) : Int × List Body := (c.Writer.status, c.Writer.body)

/-! ## The world outside the handlers -/

/-- Ghost trace entries: one per call that leaves the handler. -/
inductive Call where
  | dbExec (query : String) (args : List SqlVal)
  | dbQueryRow (query : String) (args : List SqlVal)
  | hashPassword (password : String)
  | checkPassword (hash : String) (password : String)
  | generateJWT (userID : Int) (username : String)
  | sqlOpen (driver : String) (dsn : String)
  | dbPing
  deriving DecidableEq, Repr

/-- Lines on the process-wide standard logger: `log.Println` of a marshalled JSON object, or a
formatted message. -/
inductive LogLine where
  | println (b : H)
  | printf (msg : String)
  deriving DecidableEq, Repr

/-- State of the collaborators (`st`), the ghost call trace and the standard logger output. -/
structure World (σ : Type) where
  st : σ
  calls : List Call
  log : List LogLine

/-- How a handler ends: it returned, leaving a context and a world, or it panicked. -/
inductive Outcome (σ : Type) where
  | returned (c : Context) (w : World σ)
  | panicked (msg : String) (w : World σ)

/-- The body struct of `HandleLogin`. -/
structure LoginBody where
  Username : String
  Password : String
  deriving DecidableEq, Repr

/-- The body struct of `HandleUserCreate`. -/
structure UserCreateBody where
  Username : String
  Email : String
  Password : String
  deriving DecidableEq, Repr

/-- The `sql.Result` of an `Exec`: what `LastInsertId()` gives. -/
structure ExecResult where
  LastInsertId : Except GoError Int

/-- Collaborators of the handlers. The decoders stand for encoding/json filling the handler's
body struct (an absent key leaves the empty string); `dbExec` for `a.DB.Exec`;
`dbQueryRowScan3` and `dbQueryRowScan4` for `a.DB.QueryRow(...).Scan(...)` into three and four
destinations; `HashPassword`, `CheckPassword` and `GenerateJWT` for the `App` methods of that
name, which are declared in another file of the package; `timeNow` for `time.Now()`;
`formatRFC3339Nano` for `Time.UTC().Format(time.RFC3339Nano)`; `ClientIP` for `c.ClientIP()`. -/
structure Deps (σ : Type) where
  decodeLogin : String → Except GoError LoginBody
  decodeUserCreate : String → Except GoError UserCreateBody
  dbExec : String → List SqlVal → σ → Except GoError ExecResult × σ
  dbQueryRowScan3 : String → List SqlVal → σ → Except GoError (Int × String × String) × σ
  dbQueryRowScan4 : String → List SqlVal → σ → Except GoError (Int × String × String × Int) × σ
  HashPassword : String → σ → Except GoError String × σ
  CheckPassword : String → String → σ → Option GoError × σ
  GenerateJWT : Int → String → σ → Except GoError String × σ
  timeNow : σ → Int × σ
  formatRFC3339Nano : Int → String
  ClientIP : Request → String

variable {σ : Type}

/-- Record a call on the ghost trace and move the collaborators to their next state. -/
def World.step (w : World σ) (call : Call) (s : σ) : World σ :=
  { w with st := s, calls := w.calls ++ [call] }

/-- Embeds `a.DB.Exec(query, args...)`. -/
def DBExec (d : Deps σ) (query : String) (args : List SqlVal) (w : World σ) :
    Except GoError ExecResult × World σ :=
  let r := d.dbExec query args w.st
  (r.1, w.step (.dbExec query args) r.2)

/-- Embeds `a.HashPassword(password)`. -/
def HashPassword (d : Deps σ) (password : String) (w : World σ) :
    Except GoError String × World σ :=
  let r := d.HashPassword password w.st
  (r.1, w.step (.hashPassword password) r.2)

/-- Embeds `a.CheckPassword(hash, password)`: `none` is the nil error. -/
def CheckPassword (d : Deps σ) (hash password : String) (w : World σ) :
    Option GoError × World σ :=
  let r := d.CheckPassword hash password w.st
  (r.1, w.step (.checkPassword hash password) r.2)

/-- Embeds `a.GenerateJWT(userID, username)`. -/
def GenerateJWT (d : Deps σ) (userID : Int) (username : String) (w : World σ) :
    Except GoError String × World σ :=
  let r := d.GenerateJWT userID username w.st
  (r.1, w.step (.generateJWT userID username) r.2)

/-! ## handler.go: database helpers -/

def insertUserSQL : String :=
  "INSERT INTO users (username, email, password_hash) VALUES (?, ?, ?)"

def selectByUsernameSQL : String :=
  "SELECT id, username, password_hash FROM users WHERE username = ?"

def selectByIDSQL : String :=
  "SELECT id, username, email, created_at FROM users WHERE id = ?"

/-- Embeds `App.CreateUser`: one `Exec` of the insert, then `LastInsertId`. -/
def CreateUser (d : Deps σ) (username email passwordHash : String) (w : World σ) :
    Except GoError Int × World σ :=
  match DBExec d insertUserSQL [.str username, .str email, .str passwordHash] w with
  | (.error err, w1) => (.error err, w1)
  | (.ok res, w1) => (res.LastInsertId, w1)

/-- Embeds `App.GetUserByUsername`: one `QueryRow` scanned into id, username and password hash. -/
def GetUserByUsername (d : Deps σ) (username : String) (w : World σ) :
    Except GoError (Int × String × String) × World σ :=
  let r := d.dbQueryRowScan3 selectByUsernameSQL [.str username] w.st
  (r.1, w.step (.dbQueryRow selectByUsernameSQL [.str username]) r.2)

/-- Embeds `App.GetUserByID`: one `QueryRow` scanned into the four fields of a `User`. -/
def GetUserByID (d : Deps σ) (id : Int) (w : World σ) : Except GoError User × World σ :=
  let r := d.dbQueryRowScan4 selectByIDSQL [.int id] w.st
  let w1 := w.step (.dbQueryRow selectByIDSQL [.int id]) r.2
  match r.1 with
  | .error err => (.error err, w1)
  | .ok (uid, uname, email, createdAt) =>
    (.ok { ID := uid, Username := uname, Email := email, CreatedAt := createdAt }, w1)

/-! ## handler.go: handlers -/

/-- Embeds `c.ShouldBindJSON(&body)` for the login struct: decode, then the `binding:"required"`
validation of both fields (a required string must differ from the empty string). The handler
only tests the error for nil, so its text is immaterial. -/
def bindLogin (d : Deps σ) (c : Context) : Except GoError LoginBody :=
  match d.decodeLogin c.Request.Body with
  | .error err => .error err
  | .ok b =>
    if b.Username = "" then .error (.other "Username is required")
    else if b.Password = "" then .error (.other "Password is required")
    else .ok b

/-- Embeds `c.ShouldBindJSON(&body)` for the user-creation struct. -/
def bindUserCreate (d : Deps σ) (c : Context) : Except GoError UserCreateBody :=
  match d.decodeUserCreate c.Request.Body with
  | .error err => .error err
  | .ok b =>
    if b.Username = "" then .error (.other "Username is required")
    else if b.Email = "" then .error (.other "Email is required")
    else if b.Password = "" then .error (.other "Password is required")
    else .ok b

/-- Embeds `App.HandleUserCreate` (POST /userCreate). -/
def HandleUserCreate (d : Deps σ) (c : Context) (w : World σ) : Context × World σ :=
  match bindUserCreate d c with
  | .error _ => (c.JSON StatusBadRequest (.h [("error", .str "invalid input")]), w)
  | .ok body =>
    match HashPassword d body.Password w with
    | (.error _, w1) =>
      (c.JSON StatusInternalServerError (.h [("error", .str "failed to hash password")]), w1)
    | (.ok hash, w1) =>
      match CreateUser d body.Username body.Email hash w1 with
      | (.error _, w2) =>
        (c.JSON StatusBadRequest
          (.h [("error", .str "could not create user (maybe username/email already exists)")]),
          w2)
      | (.ok id, w2) =>
        (c.JSON StatusCreated (.h [("message", .str "user created"), ("user_id", .int id)]), w2)

/-- Embeds `App.HandleLogin` (POST /login). -/
def HandleLogin (d : Deps σ) (c : Context) (w : World σ) : Context × World σ :=
  match bindLogin d c with
  | .error _ => (c.JSON StatusBadRequest (.h [("error", .str "invalid input")]), w)
  | .ok body =>
    match GetUserByUsername d body.Username w with
    | (.error err, w1) =>
      if err = GoError.ErrNoRows then
        (c.JSON StatusUnauthorized (.h [("error", .str "invalid credentials")]), w1)
      else
        (c.JSON StatusInternalServerError (.h [("error", .str "db error")]), w1)
    | (.ok (userID, username, passwordHash), w1) =>
      match CheckPassword d passwordHash body.Password w1 with
      | (some _, w2) =>
        (c.JSON StatusUnauthorized (.h [("error", .str "invalid credentials")]), w2)
      | (none, w2) =>
        match GenerateJWT d userID username w2 with
        | (.error _, w3) =>
          (c.JSON StatusInternalServerError (.h [("error", .str "failed to generate token")]),
            w3)
        | (.ok token, w3) => (c.JSON StatusOK (.h [("token", .str token)]), w3)

/-- Embeds `App.HandleUserDetails` (GET /userDetails). The unchecked assertion `userIDVal.(int)`
panics on a value of any other dynamic type. -/
def HandleUserDetails (d : Deps σ) (c : Context) (w : World σ) : Outcome σ :=
  match c.Get "userID" with
  | none => .returned (c.JSON StatusUnauthorized (.h [("error", .str "unauthorized")])) w
  | some (.int userID) =>
    match GetUserByID d userID w with
    | (.error err, w1) =>
      if err = GoError.ErrNoRows then
        .returned (c.JSON StatusNotFound (.h [("error", .str "user not found")])) w1
      else
        .returned (c.JSON StatusInternalServerError (.h [("error", .str "db error")])) w1
    | (.ok user, w1) => .returned (c.JSON StatusOK (.user user)) w1
  | some _ => .panicked "interface conversion: interface \x7b\x7d is not int" w

/-! ## logger.go -/

/-- The log record of logger.go; `UserID` is the optional `*int`. -/
structure HTTPLogEntry where
  Timestamp : String
  Method : String
  Path : String
  Status : Int
  LatencyMs : Int
  ClientIP : String
  UserAgent : String
  UserID : Option Int
  TraceID : String
  SpanID : String
  RequestID : String
  deriving DecidableEq, Repr

/-- Embeds `json.Marshal(entry)`, read as the JSON object it encodes. The four `omitempty` fields are
left out when nil or empty. No field of the record has a type that encoding/json rejects, so
the result is never an error. -/
def jsonMarshal (e : HTTPLogEntry) : Except GoError H :=
  .ok ([("ts", .str e.Timestamp), ("method", .str e.Method), ("path", .str e.Path),
        ("status", .int e.Status), ("latency_ms", .int e.LatencyMs),
        ("client_ip", .str e.ClientIP), ("user_agent", .str e.UserAgent)]
    ++ (match e.UserID with
        | some id => [("user_id", JVal.int id)]
        | none => [])
    ++ (if e.TraceID = "" then [] else [("trace_id", .str e.TraceID)])
    ++ (if e.SpanID = "" then [] else [("span_id", .str e.SpanID)])
    ++ (if e.RequestID = "" then [] else [("request_id", .str e.RequestID)]))

/-- Embeds `time.Now()`: read the clock. -/
def timeNow (d : Deps σ) (w : World σ) : Int × World σ :=
  let r := d.timeNow w.st
  (r.1, { w with st := r.2 })

/-- Embeds `log.Println(string(b))`. -/
def World.Println (w : World σ) (b : H) : World σ :=
  { w with log := w.log ++ [.println b] }

/-- Embeds `log.Printf(format, ...)` with the message already formatted. -/
def World.Printf (w : World σ) (msg : String) : World σ :=
  { w with log := w.log ++ [.printf msg] }

/-- The optional user id of the record: present only for a value of dynamic type `int`. -/
def userIDPtr (c : Context) : Option Int :=
  match c.Get "userID" with
  | some (.int id) => some id
  | _ => none

/-- The handler `FilteredLogger()` returns; `next` is the rest of the chain, run by
`c.Next()`. A panic below passes through (the function defers nothing). -/
def FilteredLogger (d : Deps σ) (next : Context → World σ → Outcome σ)
    (c : Context) (w : World σ) : Outcome σ :=
  let path := c.Request.Path
  if path = "/healthz" ∨ path = "/readyz" then
    next c w
  else
    match timeNow d w with
    | (start, w1) =>
      match next c w1 with
      | .panicked msg w2 => .panicked msg w2
      | .returned c2 w2 =>
        match timeNow d w2 with
        | (t1, w3) =>
          let latency := (t1 - start).tdiv 1000000
          let status := c2.Writer.status
          let method := c2.Request.Method
          let clientIP := d.ClientIP c2.Request
          let ua := c2.Request.UserAgent
          let traceID := c2.Request.HeaderGet "X-Trace-Id"
          let spanID := c2.Request.HeaderGet "X-Span-Id"
          let requestID := c2.Request.HeaderGet "X-Request-Id"
          match timeNow d w3 with
          | (t2, w4) =>
            let entry : HTTPLogEntry :=
              { Timestamp := d.formatRFC3339Nano t2
                Method := method
                Path := path
                Status := status
                LatencyMs := latency
                ClientIP := clientIP
                UserAgent := ua
                UserID := userIDPtr c2
                TraceID := traceID
                SpanID := spanID
                RequestID := requestID }
            match jsonMarshal entry with
            | .error err =>
              .returned c2 (w4.Printf ("failed to marshal http log: " ++ err.Error))
            | .ok b => .returned c2 (w4.Println b)

/-! ## app.go: router wiring -/

/-- The handler functions that can sit in a gin handler chain: the two `gin.Default()`
installs, and those of this package. -/
inductive HandlerName where
  | ginLogger
  | ginRecovery
  | FilteredLogger
  | AuthMiddleware
  | HandleHealthz
  | HandleReadyz
  | HandleUserCreate
  | HandleLogin
  | HandleUserDetails
  deriving DecidableEq, Repr

/-- A registered route with its full handler chain. -/
structure Route where
  method : String
  path : String
  chain : List HandlerName
  deriving DecidableEq, Repr

/-- A `gin.RouterGroup`: the middleware collected so far and the base path. -/
structure RouterGroup where
  Handlers : List HandlerName
  basePath : String
  deriving DecidableEq, Repr

/-- A `gin.Engine`: its root group and the routes registered on it. -/
structure Engine where
  root : RouterGroup
  routes : List Route
  deriving DecidableEq, Repr

/-- Embeds `gin.New()`. -/
def ginNew : Engine := { root := { Handlers := [], basePath := "/" }, routes := [] }

/-- Embeds `group.Use(middleware...)`. -/
def RouterGroup.Use (g : RouterGroup) (ms : List HandlerName) : RouterGroup :=
  { g with Handlers := g.Handlers ++ ms }

/-- Embeds `gin.Default()`: a new engine with gin's own Logger and Recovery installed. -/
def ginDefault : Engine := { ginNew with root := ginNew.root.Use [.ginLogger, .ginRecovery] }

/-- gin's `joinPaths` for the paths that occur in `Run`: a relative path under the base "/" is
itself. -/
def joinPaths (absolutePath relativePath : String) : String :=
  if relativePath = "" then absolutePath
  else if absolutePath = "/" then relativePath
  else absolutePath ++ relativePath

/-- Embeds `group.Group(relativePath)`: a group that starts from a copy of the handlers so far. -/
def RouterGroup.Group (g : RouterGroup) (relativePath : String) : RouterGroup :=
  { Handlers := g.Handlers, basePath := joinPaths g.basePath relativePath }

/-- Embeds `group.handle(method, path, h)`: the route gets the group's handlers followed by `h`. -/
def Engine.handle (e : Engine) (g : RouterGroup) (method relativePath : String)
    (h : HandlerName) : Engine :=
  { e with routes := e.routes ++
      [{ method := method, path := joinPaths g.basePath relativePath,
         chain := g.Handlers ++ [h] }] }

/-- The router `App.Run` builds before it starts listening. -/
def Run : Engine :=
  let r := ginDefault
  -- Public endpoints
  let r := r.handle r.root "POST" "/userCreate" .HandleUserCreate
  let r := r.handle r.root "POST" "/login" .HandleLogin
  -- Protected endpoints
  let auth := r.root.Group "/"
  let auth := auth.Use [.AuthMiddleware]
  r.handle auth "GET" "/userDetails" .HandleUserDetails

/-- The handler chain the engine runs for a method and path: that of the matching route. -/
def Engine.chainFor (e : Engine) (method path : String) : Option (List HandlerName) :=
  (e.routes.find? (fun rt => rt.method = method ∧ rt.path = path)).map (·.chain)

/-! ## app.go: start-up -/

/-- The process environment: a variable is unset (`none`) or has a value. -/
abbrev Environ := String → Option String

/-- Embeds `os.Getenv`: the empty string for an unset variable. -/
def osGetenv (env : Environ) (key : String) : String := (env key).getD ""

/-- Embeds `getEnv(key, fallback)` of app.go. -/
def getEnv (env : Environ) (key fallback : String) : String :=
  let v := osGetenv env key
  if v ≠ "" then v else fallback

/-- The `App` struct; `δ` is the type of database handles. -/
structure App (δ : Type) where
  DB : δ
  JWTSecret : ByteArray

/-- What start-up needs from database/sql: `sql.Open` and `db.Ping`. -/
structure SqlDriver (σ δ : Type) where
  sqlOpen : String → String → σ → Except GoError δ × σ
  dbPing : δ → σ → Option GoError × σ

/-- How `NewApp` ends: it returns the app, or `log.Fatal` ends the process with a message. -/
inductive Startup (δ : Type) where
  | app (a : App δ)
  | fatal (msg : String)

/-- Embeds `NewApp` of app.go. `log.Fatal` and `log.Fatalf` print the message and exit. -/
def NewApp {δ : Type} (sq : SqlDriver σ δ) (env : Environ) (w : World σ) :
    Startup δ × World σ :=
  let dbUser := getEnv env "DB_USER" "root"
  let dbPass := getEnv env "DB_PASSWORD" ""
  let dbHost := getEnv env "DB_HOST" "127.0.0.1"
  let dbPort := getEnv env "DB_PORT" "3306"
  let dbName := getEnv env "DB_NAME" "demo_api"
  let jwtSecret := getEnv env "JWT_SECRET" ""
  if jwtSecret = "" then
    (.fatal "JWT_SECRET must be set in environment",
      w.Printf "JWT_SECRET must be set in environment")
  else
    let dsn := dbUser ++ ":" ++ dbPass ++ "@tcp(" ++ dbHost ++ ":" ++ dbPort ++ ")/" ++ dbName
      ++ "?parseTime=true"
    let r := sq.sqlOpen "mysql" dsn w.st
    let w1 := w.step (.sqlOpen "mysql" dsn) r.2
    match r.1 with
    | .error err =>
      (.fatal ("error opening DB: " ++ err.Error), w1.Printf ("error opening DB: " ++ err.Error))
    | .ok db =>
      let p := sq.dbPing db w1.st
      let w2 := w1.step .dbPing p.2
      match p.1 with
      | some err =>
        (.fatal ("error pinging DB: " ++ err.Error),
          w2.Printf ("error pinging DB: " ++ err.Error))
      | none => (.app { DB := db, JWTSecret := jwtSecret.toUTF8 }, w2)

/-! ## Concrete collaborators, for running the handlers on explicit requests -/

/-- An in-memory instance of the collaborators. The store holds one user, row
`(1, "ahmed", "hash:secret123")`; a hash is the password behind the marker `hash:`; the state
counts the calls made, and the clock advances three milliseconds per reading. -/
def demoDeps : Deps Nat where
  decodeLogin := fun raw =>
    if raw = "login ahmed secret123" then .ok { Username := "ahmed", Password := "secret123" }
    else if raw = "login ahmed wrongpass" then
      .ok { Username := "ahmed", Password := "wrongpass" }
    else if raw = "login ghost secret123" then
      .ok { Username := "ghost", Password := "secret123" }
    else if raw = "login ahmed" then .ok { Username := "ahmed", Password := "" }
    else .error (.other "unexpected end of JSON input")
  decodeUserCreate := fun raw =>
    if raw = "create ahmed ahmed@example.com secret123" then
      .ok { Username := "ahmed", Email := "ahmed@example.com", Password := "secret123" }
    else .error (.other "unexpected end of JSON input")
  dbExec := fun _ _ s => (.ok { LastInsertId := .ok 7 }, s + 1)
  dbQueryRowScan3 := fun _ args s =>
    if args = [.str "ahmed"] then (.ok (1, "ahmed", "hash:secret123"), s + 1)
    else (.error .ErrNoRows, s + 1)
  dbQueryRowScan4 := fun _ args s =>
    if args = [.int 1] then (.ok (1, "ahmed", "ahmed@example.com", 1700000000), s + 1)
    else (.error .ErrNoRows, s + 1)
  HashPassword := fun password s => (.ok ("hash:" ++ password), s + 1)
  CheckPassword := fun hash password s =>
    (if hash = "hash:" ++ password then none else some (.other "mismatch"), s + 1)
  GenerateJWT := fun _ username s => (.ok ("jwt-for-" ++ username), s + 1)
  timeNow := fun s => (3000000 * (s : Int), s + 1)
  formatRFC3339Nano := fun _ => "2025-01-01T00:00:00.000000003Z"
  ClientIP := fun r => r.RemoteAddr

/-- The collaborators of `demoDeps` with a database whose every statement fails with a
connection error. -/
def brokenStoreDeps : Deps Nat :=
  { demoDeps with
    dbExec := fun _ _ s => (.error (.other "dial tcp 127.0.0.1:3306: connection refused"), s + 1)
    dbQueryRowScan3 := fun _ _ s =>
      (.error (.other "dial tcp 127.0.0.1:3306: connection refused"), s + 1)
    dbQueryRowScan4 := fun _ _ s =>
      (.error (.other "dial tcp 127.0.0.1:3306: connection refused"), s + 1) }

/-- The collaborators of `demoDeps` with a hasher and a token signer that fail. -/
def brokenCryptoDeps : Deps Nat :=
  { demoDeps with
    HashPassword := fun _ s => (.error (.other "bcrypt: password length exceeds 72 bytes"), s + 1)
    GenerateJWT := fun _ _ s => (.error (.other "key is of invalid type"), s + 1) }

/-- A world in which nothing has happened yet. -/
def world0 : World Nat := { st := 0, calls := [], log := [] }

/-- A request with the given method, path and raw body, and no headers. -/
def mkRequest (method path body : String) : Request :=
  { Method := method, Path := path, Header := [], Body := body, RemoteAddr := "10.0.0.9" }

def loginOK : Request := mkRequest "POST" "/login" "login ahmed secret123"
def loginWrongPass : Request := mkRequest "POST" "/login" "login ahmed wrongpass"
def loginUnknownUser : Request := mkRequest "POST" "/login" "login ghost secret123"
def createOK : Request :=
  mkRequest "POST" "/userCreate" "create ahmed ahmed@example.com secret123"
def detailsReq : Request := mkRequest "GET" "/userDetails" ""

/-- The collaborators of `demoDeps` over a store that holds the user only in state 0: from any
later state the by-username query finds no row. -/
def emptiedStoreDeps : Deps Nat :=
  { demoDeps with
    dbQueryRowScan3 := fun _ _ s =>
      if s = 0 then (.ok (1, "ahmed", "hash:secret123"), s + 1)
      else (.error .ErrNoRows, s + 1) }

/-- A world whose store has already moved past state 0. -/
def world5 : World Nat := { st := 5, calls := [], log := [] }

/-- A downstream pipeline that rejects every request the way an authorization gate does: it
answers 401 and does nothing else. -/
def rejectingNext (c : Context) (w : World Nat) : Outcome Nat :=
  .returned (c.JSON StatusUnauthorized (.h [("error", .str "unauthorized")])) w

/-- A downstream pipeline that admits the request as user 42 and answers 200. -/
def admittingNext (c : Context) (w : World Nat) : Outcome Nat :=
  .returned ({ c with Keys := ("userID", .int 42) :: c.Keys }.JSON StatusOK
    (.h [("status", .str "ok")])) w

/-- A near-miss of the liveness probe path, with correlation headers. -/
def nearMissReq : Request :=
  { Method := "GET", Path := "/healthz/",
    Header := [("X-Trace-Id", ["t-1"]), ("X-Request-Id", ["r-9", "r-10"])],
    Body := "", RemoteAddr := "10.0.0.9" }

/-- The liveness probe request. -/
def healthzReq : Request := mkRequest "GET" "/healthz" ""

/-- The context `admittingNext` leaves for the near-miss request. -/
def admittedCtx : Context :=
  { newContext nearMissReq [] with Keys := [("userID", .int 42)] }.JSON StatusOK
    (.h [("status", .str "ok")])

/-- A database driver for start-up runs: opening succeeds with handle 1 and the ping
succeeds. The state counts the calls. -/
def demoDriver : SqlDriver Nat Nat where
  sqlOpen := fun _ _ s => (.ok 1, s + 1)
  dbPing := fun _ s => (none, s + 1)

/-- An environment that sets only the signing secret. -/
def envWithSecret : Environ := fun key => if key = "JWT_SECRET" then some "s3cret" else none

/-- An environment that sets the signing secret to the empty string. -/
def envEmptySecret : Environ := fun key => if key = "JWT_SECRET" then some "" else none

/-! ## Proofs -/

/-- On a fresh context, `c.JSON` with a positive status that allows a body yields exactly that
status and that one body. -/
theorem newContext_JSON_response (r : Request) (keys : List (String × CtxVal))
    (code : Int) (obj : Body) (hpos : 0 < code) (hb : bodyAllowedForStatus code = true) :
    ((newContext r keys).JSON code obj).response = (code, [obj]) := by
  unfold Context.JSON Context.response ResponseWriter.WriteHeader newContext freshWriter
  rw [if_pos hb]
  by_cases h : (200 : Int) = code
  · simp [h.symm]
  · have : code > 0 ∧ (200 : Int) ≠ code := ⟨hpos, h⟩
    simp [this]

theorem response_200 (r : Request) (keys : List (String × CtxVal)) (obj : Body) :
    ((newContext r keys).JSON StatusOK obj).response = (200, [obj]) :=
  newContext_JSON_response r keys 200 obj (by decide) (by decide)

theorem response_201 (r : Request) (keys : List (String × CtxVal)) (obj : Body) :
    ((newContext r keys).JSON StatusCreated obj).response = (201, [obj]) :=
  newContext_JSON_response r keys 201 obj (by decide) (by decide)

theorem response_400 (r : Request) (keys : List (String × CtxVal)) (obj : Body) :
    ((newContext r keys).JSON StatusBadRequest obj).response = (400, [obj]) :=
  newContext_JSON_response r keys 400 obj (by decide) (by decide)

theorem response_401 (r : Request) (keys : List (String × CtxVal)) (obj : Body) :
    ((newContext r keys).JSON StatusUnauthorized obj).response = (401, [obj]) :=
  newContext_JSON_response r keys 401 obj (by decide) (by decide)

theorem response_404 (r : Request) (keys : List (String × CtxVal)) (obj : Body) :
    ((newContext r keys).JSON StatusNotFound obj).response = (404, [obj]) :=
  newContext_JSON_response r keys 404 obj (by decide) (by decide)

theorem response_500 (r : Request) (keys : List (String × CtxVal)) (obj : Body) :
    ((newContext r keys).JSON StatusInternalServerError obj).response = (500, [obj]) :=
  newContext_JSON_response r keys 500 obj (by decide) (by decide)

/-- C3: a request reaching `HandleUserDetails` with nothing under the context key "userID" is
answered 401 `unauthorized`, and the world is left exactly as it was: no store query (nor any
other call) is made. -/
theorem HandleUserDetails_no_identity (d : Deps σ) (r : Request)
    (keys : List (String × CtxVal)) (w : World σ) (hno : keys.lookup "userID" = none) :
    ∃ c', HandleUserDetails d (newContext r keys) w = .returned c' w ∧
      c'.response = (401, [.h [("error", .str "unauthorized")]]) := by
  refine ⟨(newContext r keys).JSON StatusUnauthorized (.h [("error", .str "unauthorized")]),
    ?_, response_401 _ _ _⟩
  have hget : (newContext r keys).Get "userID" = none := hno
  simp [HandleUserDetails, hget]

/-- C4: with the integer `n` under the context key "userID", `HandleUserDetails` returns after
exactly one store call, the by-id query with the single argument `n`; and when that query
yields a row, the response is 200 with the user record made of the row. -/
theorem HandleUserDetails_queries_once (d : Deps σ) (r : Request)
    (keys : List (String × CtxVal)) (w : World σ) (n : Int)
    (hid : keys.lookup "userID" = some (.int n)) :
    ∃ c' w', HandleUserDetails d (newContext r keys) w = .returned c' w' ∧
      w'.calls = w.calls ++ [Call.dbQueryRow selectByIDSQL [.int n]] ∧
      w'.st = (d.dbQueryRowScan4 selectByIDSQL [.int n] w.st).2 ∧
      w'.log = w.log ∧
      ∀ id uname email createdAt,
        (d.dbQueryRowScan4 selectByIDSQL [.int n] w.st).1 = .ok (id, uname, email, createdAt) →
        c'.response =
          (200, [.user { ID := id, Username := uname, Email := email, CreatedAt := createdAt }])
        := by
  have hget : (newContext r keys).Get "userID" = some (.int n) := hid
  rcases hq : (d.dbQueryRowScan4 selectByIDSQL [.int n] w.st) with ⟨res, s1⟩
  cases res with
  | error err =>
    by_cases he : err = GoError.ErrNoRows
    · exact ⟨_, _, by simp [HandleUserDetails, hget, GetUserByID, hq, he]; exact ⟨rfl, rfl⟩,
        by simp [World.step], by simp [World.step], by simp [World.step], by simp⟩
    · exact ⟨_, _, by simp [HandleUserDetails, hget, GetUserByID, hq, he]; exact ⟨rfl, rfl⟩,
        by simp [World.step], by simp [World.step], by simp [World.step], by simp⟩
  | ok row =>
    obtain ⟨id, uname, email, createdAt⟩ := row
    refine ⟨_, _, by simp [HandleUserDetails, hget, GetUserByID, hq]; exact ⟨rfl, rfl⟩,
        by simp [World.step], by simp [World.step], by simp [World.step], ?_⟩
    intro id' uname' email' createdAt' h
    simp at h
    obtain ⟨rfl, rfl, rfl, rfl⟩ := h
    exact response_200 _ _ _

theorem newContext_Request (r : Request) (keys : List (String × CtxVal)) :
    (newContext r keys).Request = r := rfl

/-- C1: on any request, `HandleLogin` answers 200 with body `token: t` exactly when the body
binds (it decodes and both required fields are non-empty), the by-username query returns a
row, `CheckPassword` on the row's hash and the submitted password returns no error, and
`GenerateJWT` on the row's id and username returns `t`; and a response carrying any token at
all is such a response. -/
theorem HandleLogin_token_iff (d : Deps σ) (r : Request) (keys : List (String × CtxVal))
    (w : World σ) (t : String) :
    ((HandleLogin d (newContext r keys) w).1.response = (200, [.h [("token", .str t)]]) ↔
      ∃ b id uname hash s1 s2 s3,
        d.decodeLogin r.Body = .ok b ∧ b.Username ≠ "" ∧ b.Password ≠ "" ∧
        d.dbQueryRowScan3 selectByUsernameSQL [.str b.Username] w.st
          = (.ok (id, uname, hash), s1) ∧
        d.CheckPassword hash b.Password s1 = (none, s2) ∧
        d.GenerateJWT id uname s2 = (.ok t, s3)) ∧
    (∀ o, Body.h o ∈ (HandleLogin d (newContext r keys) w).1.response.2 →
      ("token", JVal.str t) ∈ o →
      (HandleLogin d (newContext r keys) w).1.response = (200, [.h [("token", .str t)]])) := by
  cases hdec : d.decodeLogin r.Body with
  | error e =>
    simp [HandleLogin, bindLogin, newContext_Request, hdec, response_400]
  | ok b =>
    by_cases hu : b.Username = ""
    · simp [HandleLogin, bindLogin, newContext_Request, hdec, hu, response_400]
    by_cases hp : b.Password = ""
    · simp [HandleLogin, bindLogin, newContext_Request, hdec, hu, hp, response_400]
    rcases hq : d.dbQueryRowScan3 selectByUsernameSQL [.str b.Username] w.st with ⟨res, s1⟩
    cases res with
    | error err =>
      by_cases he : err = GoError.ErrNoRows
      · simp [HandleLogin, bindLogin, newContext_Request, hdec, hu, hp, GetUserByUsername, hq,
          he, response_401]
      · simp [HandleLogin, bindLogin, newContext_Request, hdec, hu, hp, GetUserByUsername, hq,
          he, response_500]
    | ok row =>
      obtain ⟨id, uname, hash⟩ := row
      rcases hc : d.CheckPassword hash b.Password s1 with ⟨cres, s2⟩
      cases cres with
      | some err =>
        simp [HandleLogin, bindLogin, newContext_Request, hdec, hu, hp, GetUserByUsername, hq,
          CheckPassword, World.step, hc, response_401]
        rintro _ _ _ _ rfl rfl rfl rfl s4 h4
        rw [hc] at h4
        simp at h4
      | none =>
        rcases hg : d.GenerateJWT id uname s2 with ⟨gres, s3⟩
        cases gres with
        | error err =>
          simp [HandleLogin, bindLogin, newContext_Request, hdec, hu, hp, GetUserByUsername, hq,
            CheckPassword, World.step, hc, GenerateJWT, hg, response_500]
          rintro _ _ _ _ rfl rfl rfl rfl s4 h4 s5 h5
          rw [hc] at h4
          simp only [Prod.mk.injEq, true_and] at h4
          subst h4
          rw [hg] at h5
          simp at h5
        | ok tok =>
          simp [HandleLogin, bindLogin, newContext_Request, hdec, hu, hp, GetUserByUsername, hq,
            CheckPassword, World.step, hc, GenerateJWT, hg, response_200]
          refine ⟨⟨?_, ?_⟩, fun h => h.symm⟩
          · rintro rfl
            exact ⟨id, uname, hash, s1, ⟨⟨rfl, rfl, rfl⟩, rfl⟩, s2, hc, s3, hg⟩
          · rintro ⟨_, _, _, _, ⟨⟨rfl, rfl, rfl⟩, rfl⟩, s4, h4, s5, h5⟩
            rw [hc] at h4
            simp only [Prod.mk.injEq, true_and] at h4
            subst h4
            rw [hg] at h5
            simp only [Prod.mk.injEq, Except.ok.injEq] at h5
            exact h5.1
/-- C1, at a concrete request: the demo login is answered with the token generated for the
stored row. -/
theorem HandleLogin_token_iff_witness :
    (HandleLogin demoDeps (newContext loginOK []) world0).1.response
      = (200, [.h [("token", .str "jwt-for-ahmed")]]) :=
  (HandleLogin_token_iff demoDeps loginOK [] world0 "jwt-for-ahmed").1.2
    ⟨{ Username := "ahmed", Password := "secret123" }, 1, "ahmed", "hash:secret123", 1, 2, 3,
      rfl, by decide, by decide, rfl, rfl, rfl⟩

/-- C3 at a concrete request without identity. -/
theorem HandleUserDetails_no_identity_witness :
    ([] : List (String × CtxVal)).lookup "userID" = none ∧
    ∃ c', HandleUserDetails demoDeps (newContext detailsReq []) world0 = .returned c' world0 ∧
      c'.response = (401, [.h [("error", .str "unauthorized")]]) :=
  ⟨by decide, HandleUserDetails_no_identity demoDeps detailsReq [] world0 (by decide)⟩

/-- C4 at a concrete request authorised for user 1. -/
theorem HandleUserDetails_queries_once_witness :
    [("userID", CtxVal.int 1)].lookup "userID" = some (.int 1) ∧
    ∃ c' w', HandleUserDetails demoDeps (newContext detailsReq [("userID", .int 1)]) world0
        = .returned c' w' ∧
      w'.calls = world0.calls ++ [Call.dbQueryRow selectByIDSQL [.int 1]] ∧
      w'.st = (demoDeps.dbQueryRowScan4 selectByIDSQL [.int 1] world0.st).2 ∧
      w'.log = world0.log ∧
      ∀ id uname email createdAt,
        (demoDeps.dbQueryRowScan4 selectByIDSQL [.int 1] world0.st).1
          = .ok (id, uname, email, createdAt) →
        c'.response =
          (200, [.user { ID := id, Username := uname, Email := email, CreatedAt := createdAt }])
        :=
  ⟨by decide,
    HandleUserDetails_queries_once demoDeps detailsReq [("userID", .int 1)] world0 1
      (by decide)⟩

/-- C2: for a login body that binds, the run in which the by-username query fails with the
no-rows sentinel and the run in which the row is found but `CheckPassword` returns an error
leave the same context (status 401, body `invalid credentials`), and neither calls
`GenerateJWT`: the calls made are the query alone, respectively the query and the password
check. -/
theorem HandleLogin_unknown_user_eq_wrong_password (d : Deps σ) (r : Request)
    (keys : List (String × CtxVal)) (wA wB : World σ) (b : LoginBody)
    (id : Int) (uname hash : String) (err : GoError) (sA sB sB' : σ)
    (hdec : d.decodeLogin r.Body = .ok b) (hu : b.Username ≠ "") (hp : b.Password ≠ "")
    (hA : d.dbQueryRowScan3 selectByUsernameSQL [.str b.Username] wA.st
      = (.error .ErrNoRows, sA))
    (hB : d.dbQueryRowScan3 selectByUsernameSQL [.str b.Username] wB.st
      = (.ok (id, uname, hash), sB))
    (hcheck : d.CheckPassword hash b.Password sB = (some err, sB')) :
    (HandleLogin d (newContext r keys) wA).1 = (HandleLogin d (newContext r keys) wB).1 ∧
    (HandleLogin d (newContext r keys) wA).1.response
      = (401, [.h [("error", .str "invalid credentials")]]) ∧
    (HandleLogin d (newContext r keys) wB).1.response
      = (401, [.h [("error", .str "invalid credentials")]]) ∧
    (HandleLogin d (newContext r keys) wA).2.calls
      = wA.calls ++ [Call.dbQueryRow selectByUsernameSQL [.str b.Username]] ∧
    (HandleLogin d (newContext r keys) wB).2.calls
      = wB.calls ++ [Call.dbQueryRow selectByUsernameSQL [.str b.Username],
          Call.checkPassword hash b.Password] := by
  have eA : HandleLogin d (newContext r keys) wA
      = ((newContext r keys).JSON StatusUnauthorized (.h [("error", .str "invalid credentials")]),
          wA.step (.dbQueryRow selectByUsernameSQL [.str b.Username]) sA) := by
    simp [HandleLogin, bindLogin, newContext_Request, hdec, hu, hp, GetUserByUsername, hA]
  have eB : HandleLogin d (newContext r keys) wB
      = ((newContext r keys).JSON StatusUnauthorized (.h [("error", .str "invalid credentials")]),
          (wB.step (.dbQueryRow selectByUsernameSQL [.str b.Username]) sB).step
            (.checkPassword hash b.Password) sB') := by
    simp [HandleLogin, bindLogin, newContext_Request, hdec, hu, hp, GetUserByUsername, hB,
      CheckPassword, World.step, hcheck]
  rw [eA, eB]
  refine ⟨rfl, response_401 _ _ _, response_401 _ _ _, ?_, ?_⟩ <;> simp [World.step]

/-- C2 at a concrete request: the same login body against a store state without the user and
against a store state whose row carries the hash of another password. -/
theorem HandleLogin_unknown_user_eq_wrong_password_witness :
    (HandleLogin emptiedStoreDeps (newContext loginWrongPass []) world5).1
      = (HandleLogin emptiedStoreDeps (newContext loginWrongPass []) world0).1 ∧
    (HandleLogin emptiedStoreDeps (newContext loginWrongPass []) world5).1.response
      = (401, [.h [("error", .str "invalid credentials")]]) ∧
    (HandleLogin emptiedStoreDeps (newContext loginWrongPass []) world0).1.response
      = (401, [.h [("error", .str "invalid credentials")]]) ∧
    (HandleLogin emptiedStoreDeps (newContext loginWrongPass []) world5).2.calls
      = world5.calls ++ [Call.dbQueryRow selectByUsernameSQL [.str "ahmed"]] ∧
    (HandleLogin emptiedStoreDeps (newContext loginWrongPass []) world0).2.calls
      = world0.calls ++ [Call.dbQueryRow selectByUsernameSQL [.str "ahmed"],
          Call.checkPassword "hash:secret123" "wrongpass"] :=
  HandleLogin_unknown_user_eq_wrong_password emptiedStoreDeps loginWrongPass [] world5 world0
    { Username := "ahmed", Password := "wrongpass" } 1 "ahmed" "hash:secret123"
    (.other "mismatch") 6 1 2 rfl (by decide) (by decide) rfl rfl rfl

/-- C10: for a creation body that binds, when `HashPassword` on the submitted password returns
`h` and the insert succeeds with id `i`, `HandleUserCreate` makes exactly two calls, the hasher
on the password and one insert with the arguments username, email and `h`, and answers 201 with
`user_id` equal to `i`. -/
theorem HandleUserCreate_success (d : Deps σ) (r : Request) (keys : List (String × CtxVal))
    (w : World σ) (b : UserCreateBody) (h : String) (res : ExecResult) (i : Int) (s1 s2 : σ)
    (hdec : d.decodeUserCreate r.Body = .ok b)
    (hu : b.Username ≠ "") (hm : b.Email ≠ "") (hp : b.Password ≠ "")
    (hhash : d.HashPassword b.Password w.st = (.ok h, s1))
    (hins : d.dbExec insertUserSQL [.str b.Username, .str b.Email, .str h] s1 = (.ok res, s2))
    (hid : res.LastInsertId = .ok i) :
    (HandleUserCreate d (newContext r keys) w).1.response
      = (201, [.h [("message", .str "user created"), ("user_id", .int i)]]) ∧
    (HandleUserCreate d (newContext r keys) w).2.calls
      = w.calls ++ [Call.hashPassword b.Password,
          Call.dbExec insertUserSQL [.str b.Username, .str b.Email, .str h]] ∧
    (HandleUserCreate d (newContext r keys) w).2.st = s2 := by
  have e : HandleUserCreate d (newContext r keys) w
      = ((newContext r keys).JSON StatusCreated
          (.h [("message", .str "user created"), ("user_id", .int i)]),
          (w.step (.hashPassword b.Password) s1).step
            (.dbExec insertUserSQL [.str b.Username, .str b.Email, .str h]) s2) := by
    simp [HandleUserCreate, bindUserCreate, newContext_Request, hdec, hu, hm, hp, HashPassword,
      hhash, CreateUser, DBExec, World.step, hins, hid]
  rw [e]
  refine ⟨response_201 _ _ _, ?_, ?_⟩ <;> simp [World.step]

/-- C10 at the concrete creation request of the test suite. -/
theorem HandleUserCreate_success_witness :
    (HandleUserCreate demoDeps (newContext createOK []) world0).1.response
      = (201, [.h [("message", .str "user created"), ("user_id", .int 7)]]) ∧
    (HandleUserCreate demoDeps (newContext createOK []) world0).2.calls
      = world0.calls ++ [Call.hashPassword "secret123",
          Call.dbExec insertUserSQL
            [.str "ahmed", .str "ahmed@example.com", .str "hash:secret123"]] ∧
    (HandleUserCreate demoDeps (newContext createOK []) world0).2.st = 2 :=
  HandleUserCreate_success demoDeps createOK [] world0
    { Username := "ahmed", Email := "ahmed@example.com", Password := "secret123" }
    "hash:secret123" { LastInsertId := .ok 7 } 7 1 2
    rfl (by decide) (by decide) (by decide) rfl rfl rfl
/-- C7 fails for `HandleUserCreate`: when the insert fails with a connection error (a store
error that is not the no-rows sentinel), the response status is 400, not 500. -/
theorem HandleUserCreate_store_error_not_500 :
    (brokenStoreDeps.dbExec insertUserSQL
        [.str "ahmed", .str "ahmed@example.com", .str "hash:secret123"] 1).1
      = .error (.other "dial tcp 127.0.0.1:3306: connection refused") ∧
    (HandleUserCreate brokenStoreDeps (newContext createOK []) world0).1.response
      = (400,
          [.h [("error", .str "could not create user (maybe username/email already exists)")]]) ∧
    (HandleUserCreate brokenStoreDeps (newContext createOK []) world0).1.response.1 ≠ 500 :=
  ⟨rfl, by decide, by decide⟩

/-- C7, amended: a hashing failure in `HandleUserCreate`, a store error other than no-rows in
`HandleLogin` and in `HandleUserDetails`, and a token-signing failure in `HandleLogin` are each
answered 500 with a fixed body that does not depend on the error value; a failed insert in
`HandleUserCreate` (an `Exec` error or a `LastInsertId` error) is answered 400 with a fixed body
that does not depend on the error value either. -/
theorem internal_failures_fixed_response (d : Deps σ) (r : Request)
    (keys : List (String × CtxVal)) (w : World σ) :
    (∀ b e s1, bindUserCreate d (newContext r keys) = .ok b →
      d.HashPassword b.Password w.st = (.error e, s1) →
      (HandleUserCreate d (newContext r keys) w).1.response
        = (500, [.h [("error", .str "failed to hash password")]])) ∧
    (∀ b e s1, bindLogin d (newContext r keys) = .ok b →
      d.dbQueryRowScan3 selectByUsernameSQL [.str b.Username] w.st = (.error e, s1) →
      e ≠ GoError.ErrNoRows →
      (HandleLogin d (newContext r keys) w).1.response
        = (500, [.h [("error", .str "db error")]])) ∧
    (∀ b id uname hash e s1 s2 s3, bindLogin d (newContext r keys) = .ok b →
      d.dbQueryRowScan3 selectByUsernameSQL [.str b.Username] w.st
        = (.ok (id, uname, hash), s1) →
      d.CheckPassword hash b.Password s1 = (none, s2) →
      d.GenerateJWT id uname s2 = (.error e, s3) →
      (HandleLogin d (newContext r keys) w).1.response
        = (500, [.h [("error", .str "failed to generate token")]])) ∧
    (∀ n e s1, keys.lookup "userID" = some (.int n) →
      d.dbQueryRowScan4 selectByIDSQL [.int n] w.st = (.error e, s1) →
      e ≠ GoError.ErrNoRows →
      ∃ c' w', HandleUserDetails d (newContext r keys) w = .returned c' w' ∧
        c'.response = (500, [.h [("error", .str "db error")]])) ∧
    (∀ b h e s1 s2, bindUserCreate d (newContext r keys) = .ok b →
      d.HashPassword b.Password w.st = (.ok h, s1) →
      (d.dbExec insertUserSQL [.str b.Username, .str b.Email, .str h] s1 = (.error e, s2) ∨
        ∃ res, d.dbExec insertUserSQL [.str b.Username, .str b.Email, .str h] s1
            = (.ok res, s2) ∧ res.LastInsertId = .error e) →
      (HandleUserCreate d (newContext r keys) w).1.response
        = (400, [.h [("error",
            .str "could not create user (maybe username/email already exists)")]])) := by
  refine ⟨?_, ?_, ?_, ?_, ?_⟩
  · intro b e s1 hb hh
    simp [HandleUserCreate, hb, HashPassword, hh, response_500]
  · intro b e s1 hb hq he
    simp [HandleLogin, hb, GetUserByUsername, hq, he, response_500]
  · intro b id uname hash e s1 s2 s3 hb hq hc hg
    simp [HandleLogin, hb, GetUserByUsername, hq, CheckPassword, World.step, hc, GenerateJWT,
      hg, response_500]
  · intro n e s1 hid hq he
    have hget : (newContext r keys).Get "userID" = some (.int n) := hid
    exact ⟨_, _, by simp [HandleUserDetails, hget, GetUserByID, hq, he]; exact ⟨rfl, rfl⟩,
      response_500 _ _ _⟩
  · intro b h e s1 s2 hb hh hins
    rcases hins with hins | ⟨res, hins, hid⟩
    · simp [HandleUserCreate, hb, HashPassword, hh, CreateUser, DBExec, World.step, hins,
        response_400]
    · simp [HandleUserCreate, hb, HashPassword, hh, CreateUser, DBExec, World.step, hins, hid,
        response_400]

/-- C7 amended, at concrete failures: a failing hasher, a refused store connection on login and
on the details query, a failing signer, and a refused connection on the insert. -/
theorem internal_failures_fixed_response_witness :
    (HandleUserCreate brokenCryptoDeps (newContext createOK []) world0).1.response
      = (500, [.h [("error", .str "failed to hash password")]]) ∧
    (HandleLogin brokenStoreDeps (newContext loginOK []) world0).1.response
      = (500, [.h [("error", .str "db error")]]) ∧
    (HandleLogin brokenCryptoDeps (newContext loginOK []) world0).1.response
      = (500, [.h [("error", .str "failed to generate token")]]) ∧
    (∃ c' w', HandleUserDetails brokenStoreDeps (newContext detailsReq [("userID", .int 1)])
        world0 = .returned c' w' ∧ c'.response = (500, [.h [("error", .str "db error")]])) ∧
    (HandleUserCreate brokenStoreDeps (newContext createOK []) world0).1.response
      = (400, [.h [("error",
          .str "could not create user (maybe username/email already exists)")]]) :=
  ⟨(internal_failures_fixed_response brokenCryptoDeps createOK [] world0).1
      { Username := "ahmed", Email := "ahmed@example.com", Password := "secret123" }
      (.other "bcrypt: password length exceeds 72 bytes") 1 rfl rfl,
    (internal_failures_fixed_response brokenStoreDeps loginOK [] world0).2.1
      { Username := "ahmed", Password := "secret123" }
      (.other "dial tcp 127.0.0.1:3306: connection refused") 1 rfl rfl (by decide),
    (internal_failures_fixed_response brokenCryptoDeps loginOK [] world0).2.2.1
      { Username := "ahmed", Password := "secret123" } 1 "ahmed" "hash:secret123"
      (.other "key is of invalid type") 1 2 3 rfl rfl rfl rfl,
    (internal_failures_fixed_response brokenStoreDeps detailsReq [("userID", .int 1)]
      world0).2.2.2.1 1 (.other "dial tcp 127.0.0.1:3306: connection refused") 1 (by decide) rfl
      (by decide),
    (internal_failures_fixed_response brokenStoreDeps createOK [] world0).2.2.2.2
      { Username := "ahmed", Email := "ahmed@example.com", Password := "secret123" }
      "hash:secret123" (.other "dial tcp 127.0.0.1:3306: connection refused") 1 2 rfl rfl
      (Or.inl rfl)⟩
/-- The logger on a path that is not a probe path, when the rest of the chain returns: it
returns the context the chain left, having appended one marshalled record. -/
theorem FilteredLogger_logged (d : Deps σ) (next : Context → World σ → Outcome σ)
    (c c2 : Context) (w w2 : World σ)
    (hpath : ¬(c.Request.Path = "/healthz" ∨ c.Request.Path = "/readyz"))
    (hnext : next c (timeNow d w).2 = .returned c2 w2) :
    FilteredLogger d next c w = .returned c2
      ((timeNow d (timeNow d w2).2).2.Println
        ([("ts", .str (d.formatRFC3339Nano (timeNow d (timeNow d w2).2).1)),
          ("method", .str c2.Request.Method), ("path", .str c.Request.Path),
          ("status", .int c2.Writer.status),
          ("latency_ms", .int (((timeNow d w2).1 - (timeNow d w).1).tdiv 1000000)),
          ("client_ip", .str (d.ClientIP c2.Request)),
          ("user_agent", .str c2.Request.UserAgent)]
        ++ (match userIDPtr c2 with
            | some id => [("user_id", JVal.int id)]
            | none => [])
        ++ (if c2.Request.HeaderGet "X-Trace-Id" = "" then []
            else [("trace_id", .str (c2.Request.HeaderGet "X-Trace-Id"))])
        ++ (if c2.Request.HeaderGet "X-Span-Id" = "" then []
            else [("span_id", .str (c2.Request.HeaderGet "X-Span-Id"))])
        ++ (if c2.Request.HeaderGet "X-Request-Id" = "" then []
            else [("request_id", .str (c2.Request.HeaderGet "X-Request-Id"))]))) := by
  unfold FilteredLogger
  simp only [if_neg hpath]
  rw [show timeNow d w = ((timeNow d w).1, (timeNow d w).2) from rfl]
  simp only [hnext]
  rfl
theorem userIDPtr_eq_some (c : Context) (n : Int) :
    userIDPtr c = some n ↔ c.Keys.lookup "userID" = some (.int n) := by
  unfold userIDPtr Context.Get
  cases h : c.Keys.lookup "userID" with
  | none => simp
  | some v => cases v <;> simp

/-- C5: on the exact paths "/healthz" and "/readyz" the logger is the rest of the chain and
nothing more, so it emits no record; on every other path, whenever the rest of the chain
returns, with whatever context and status, the logger returns that context and the log is the
one the chain left followed by exactly one record, with no call added to the trace. -/
theorem FilteredLogger_one_record (d : Deps σ) (next : Context → World σ → Outcome σ)
    (c : Context) (w : World σ) :
    ((c.Request.Path = "/healthz" ∨ c.Request.Path = "/readyz") →
      FilteredLogger d next c w = next c w) ∧
    (¬(c.Request.Path = "/healthz" ∨ c.Request.Path = "/readyz") →
      ∀ c2 w2, next c (timeNow d w).2 = .returned c2 w2 →
        ∃ b w', FilteredLogger d next c w = .returned c2 w' ∧
          w'.log = w2.log ++ [.println b] ∧ w'.calls = w2.calls) := by
  refine ⟨fun hprobe => ?_, fun hpath c2 w2 hnext => ?_⟩
  · unfold FilteredLogger
    simp only [if_pos hprobe]
  · exact ⟨_, _, FilteredLogger_logged d next c c2 w w2 hpath hnext, rfl, rfl⟩

/-- C5 at concrete requests: the probe path with a rejecting chain leaves the log empty; the
near-miss "/healthz/" with a chain that rejects with 401 leaves exactly one record. -/
theorem FilteredLogger_one_record_witness :
    FilteredLogger demoDeps rejectingNext (newContext healthzReq []) world0
      = rejectingNext (newContext healthzReq []) world0 ∧
    ∃ b w', FilteredLogger demoDeps rejectingNext (newContext nearMissReq []) world0
        = .returned ((newContext nearMissReq []).JSON StatusUnauthorized
            (.h [("error", .str "unauthorized")])) w' ∧
      w'.log = (timeNow demoDeps world0).2.log ++ [.println b] ∧
      w'.calls = (timeNow demoDeps world0).2.calls :=
  ⟨(FilteredLogger_one_record demoDeps rejectingNext (newContext healthzReq []) world0).1
      (by decide),
    (FilteredLogger_one_record demoDeps rejectingNext (newContext nearMissReq []) world0).2
      (by decide) _ _ rfl⟩

/-- C9: on a path that is not a probe path, when the rest of the chain returns context `c2`,
the one record logged is the marshalled entry whose status is the status `c2` ends with, whose
method is that of the request in `c2`, whose path is the request path read on entry, whose
user id is `n` exactly when `c2` holds the `int` value `n` under "userID" (a value of another
type gives none), and whose trace, span and request ids are the values of the X-Trace-Id,
X-Span-Id and X-Request-Id headers of the request in `c2`; when the chain left the request as
it was, these are the method and headers of the request received. -/
theorem FilteredLogger_record_fields (d : Deps σ) (next : Context → World σ → Outcome σ)
    (c c2 : Context) (w w2 : World σ)
    (hpath : ¬(c.Request.Path = "/healthz" ∨ c.Request.Path = "/readyz"))
    (hnext : next c (timeNow d w).2 = .returned c2 w2) :
    ∃ e b w', FilteredLogger d next c w = .returned c2 w' ∧
      jsonMarshal e = .ok b ∧ w'.log = w2.log ++ [.println b] ∧
      e.Status = c2.Writer.status ∧
      e.Method = c2.Request.Method ∧
      e.Path = c.Request.Path ∧
      (∀ n, e.UserID = some n ↔ c2.Keys.lookup "userID" = some (.int n)) ∧
      e.TraceID = c2.Request.HeaderGet "X-Trace-Id" ∧
      e.SpanID = c2.Request.HeaderGet "X-Span-Id" ∧
      e.RequestID = c2.Request.HeaderGet "X-Request-Id" ∧
      (c2.Request = c.Request →
        e.Method = c.Request.Method ∧ e.Path = c2.Request.Path ∧
        e.TraceID = c.Request.HeaderGet "X-Trace-Id" ∧
        e.SpanID = c.Request.HeaderGet "X-Span-Id" ∧
        e.RequestID = c.Request.HeaderGet "X-Request-Id") := by
  refine ⟨{ Timestamp := d.formatRFC3339Nano (timeNow d (timeNow d w2).2).1
            Method := c2.Request.Method
            Path := c.Request.Path
            Status := c2.Writer.status
            LatencyMs := ((timeNow d w2).1 - (timeNow d w).1).tdiv 1000000
            ClientIP := d.ClientIP c2.Request
            UserAgent := c2.Request.UserAgent
            UserID := userIDPtr c2
            TraceID := c2.Request.HeaderGet "X-Trace-Id"
            SpanID := c2.Request.HeaderGet "X-Span-Id"
            RequestID := c2.Request.HeaderGet "X-Request-Id" }, _, _,
    FilteredLogger_logged d next c c2 w w2 hpath hnext, rfl, rfl, rfl, rfl, rfl,
    userIDPtr_eq_some c2, rfl, rfl, rfl, ?_⟩
  intro hreq
  simp only [hreq, and_self]

/-- C9 at a concrete request: the near-miss path with a chain that admits user 42. -/
theorem FilteredLogger_record_fields_witness :
    ∃ e b w', FilteredLogger demoDeps admittingNext (newContext nearMissReq []) world0
        = .returned admittedCtx w' ∧
      jsonMarshal e = .ok b ∧ w'.log = [.println b] ∧
      e.Status = 200 ∧ e.Method = "GET" ∧ e.Path = "/healthz/" ∧ e.UserID = some 42 ∧
      e.TraceID = "t-1" ∧ e.SpanID = "" ∧ e.RequestID = "r-9" := by
  obtain ⟨e, b, w', h1, h2, h3, h4, h5, h6, h7, h8, h9, h10, _⟩ :=
    FilteredLogger_record_fields demoDeps admittingNext (newContext nearMissReq [])
      admittedCtx world0 (timeNow demoDeps world0).2 (by decide) rfl
  exact ⟨e, b, w', h1, h2, h3, h4, h5, h6, (h7 42).2 (by decide), h8, h9, h10⟩
/-- C6, the code as it is: the router `App.Run` builds gives GET /userDetails the chain gin
Logger, gin Recovery, AuthMiddleware, HandleUserDetails, and the two POST routes the chain gin
Logger, gin Recovery, handler; `FilteredLogger` is in the chain of no route, and no route is
registered for the probe paths. -/
theorem Run_chains :
    Run.chainFor "GET" "/userDetails"
      = some [.ginLogger, .ginRecovery, .AuthMiddleware, .HandleUserDetails] ∧
    Run.chainFor "POST" "/login" = some [.ginLogger, .ginRecovery, .HandleLogin] ∧
    Run.chainFor "POST" "/userCreate" = some [.ginLogger, .ginRecovery, .HandleUserCreate] ∧
    (∀ rt ∈ Run.routes, HandlerName.FilteredLogger ∉ rt.chain) ∧
    Run.chainFor "GET" "/healthz" = none ∧ Run.chainFor "GET" "/readyz" = none := by
  decide

theorem toUTF8_size_pos (s : String) (h : s ≠ "") : 0 < s.toUTF8.size := by
  rw [String.size_toUTF8]
  obtain ⟨cs⟩ := s
  cases cs with
  | nil => exact absurd rfl h
  | cons c cs =>
    have := Char.utf8Size_pos c
    simp only [String.utf8ByteSize, String.utf8ByteSize.go]
    omega

theorem getEnv_empty_fallback (env : Environ) (key : String) :
    getEnv env key "" = osGetenv env key := by
  unfold getEnv
  by_cases h : osGetenv env key = "" <;> simp [h]

/-- The body of `NewApp` with the secret read directly from the environment. -/
theorem NewApp_unfold {δ : Type} (sq : SqlDriver σ δ) (env : Environ) (w : World σ) :
    NewApp sq env w =
      if osGetenv env "JWT_SECRET" = "" then
        (.fatal "JWT_SECRET must be set in environment",
          w.Printf "JWT_SECRET must be set in environment")
      else
        let dsn := getEnv env "DB_USER" "root" ++ ":" ++ getEnv env "DB_PASSWORD" "" ++ "@tcp("
          ++ getEnv env "DB_HOST" "127.0.0.1" ++ ":" ++ getEnv env "DB_PORT" "3306" ++ ")/"
          ++ getEnv env "DB_NAME" "demo_api" ++ "?parseTime=true"
        let r := sq.sqlOpen "mysql" dsn w.st
        let w1 := w.step (.sqlOpen "mysql" dsn) r.2
        match r.1 with
        | .error err =>
          (.fatal ("error opening DB: " ++ err.Error),
            w1.Printf ("error opening DB: " ++ err.Error))
        | .ok db =>
          let p := sq.dbPing db w1.st
          let w2 := w1.step .dbPing p.2
          match p.1 with
          | some err =>
            (.fatal ("error pinging DB: " ++ err.Error),
              w2.Printf ("error pinging DB: " ++ err.Error))
          | none => (.app { DB := db, JWTSecret := (osGetenv env "JWT_SECRET").toUTF8 }, w2) := by
  unfold NewApp
  simp only [getEnv_empty_fallback]

/-- C8: when JWT_SECRET is unset or empty, `NewApp` ends fatally with the message
"JWT_SECRET must be set in environment", having made no call (no database is opened) and left
the collaborators' state untouched; and whenever `NewApp` returns an app, JWT_SECRET is set to
a non-empty value, the app's secret is the non-empty UTF-8 byte string of that value, and
exactly two calls were made, `sql.Open` which returned the app's handle without error and then
the ping of that handle, which returned no error. -/
theorem NewApp_requires_secret {δ : Type} (sq : SqlDriver σ δ) (env : Environ) (w : World σ) :
    ((env "JWT_SECRET" = none ∨ env "JWT_SECRET" = some "") →
      (NewApp sq env w).1 = .fatal "JWT_SECRET must be set in environment" ∧
      (NewApp sq env w).2.calls = w.calls ∧ (NewApp sq env w).2.st = w.st) ∧
    (∀ a, (NewApp sq env w).1 = .app a →
      ∃ v dsn s1 s2, env "JWT_SECRET" = some v ∧ v ≠ "" ∧
        a.JWTSecret = v.toUTF8 ∧ 0 < a.JWTSecret.size ∧
        sq.sqlOpen "mysql" dsn w.st = (.ok a.DB, s1) ∧
        sq.dbPing a.DB s1 = (none, s2) ∧
        (NewApp sq env w).2.calls = w.calls ++ [Call.sqlOpen "mysql" dsn, Call.dbPing] ∧
        (NewApp sq env w).2.st = s2) := by
  rw [NewApp_unfold]
  constructor
  · intro hunset
    have h : osGetenv env "JWT_SECRET" = "" := by
      rcases hunset with h | h <;> simp [osGetenv, h]
    simp [h, World.Printf]
  · intro a ha
    by_cases h : osGetenv env "JWT_SECRET" = ""
    · simp [h] at ha
    · simp only [if_neg h] at ha ⊢
      obtain ⟨v, hv⟩ : ∃ v, env "JWT_SECRET" = some v := by
        cases hv : env "JWT_SECRET" with
        | none => simp [osGetenv, hv] at h
        | some v => exact ⟨v, rfl⟩
      have hv' : osGetenv env "JWT_SECRET" = v := by simp [osGetenv, hv]
      rw [hv'] at h ha ⊢
      generalize hdsn : getEnv env "DB_USER" "root" ++ ":" ++ getEnv env "DB_PASSWORD" ""
          ++ "@tcp(" ++ getEnv env "DB_HOST" "127.0.0.1" ++ ":" ++ getEnv env "DB_PORT" "3306"
          ++ ")/" ++ getEnv env "DB_NAME" "demo_api" ++ "?parseTime=true" = dsn at ha ⊢
      rcases ho : sq.sqlOpen "mysql" dsn w.st with ⟨ores, s1⟩
      simp only [ho] at ha ⊢
      cases ores with
      | error err => simp at ha
      | ok db =>
        simp only at ha ⊢
        rcases hp : sq.dbPing db (w.step (.sqlOpen "mysql" dsn) s1).st with ⟨pres, s2⟩
        simp only [hp] at ha ⊢
        cases pres with
        | some err => simp at ha
        | none =>
          simp only [Startup.app.injEq] at ha
          subst ha
          exact ⟨v, dsn, s1, s2, hv, h, rfl, toUTF8_size_pos v h, ho, hp, by simp [World.step],
            rfl⟩
/-- C8 at concrete environments: with JWT_SECRET set to the empty string start-up is fatal and
no call is made; with JWT_SECRET set to `s3cret` and a reachable database, the app returned
carries the six bytes of `s3cret`, after `sql.Open` on the default data source and one ping. -/
theorem NewApp_requires_secret_witness :
    ((NewApp demoDriver envEmptySecret world0).1 = .fatal "JWT_SECRET must be set in environment" ∧
      (NewApp demoDriver envEmptySecret world0).2.calls = world0.calls ∧
      (NewApp demoDriver envEmptySecret world0).2.st = world0.st) ∧
    (∃ v dsn s1 s2, envWithSecret "JWT_SECRET" = some v ∧ v ≠ "" ∧
        "s3cret".toUTF8 = v.toUTF8 ∧ 0 < "s3cret".toUTF8.size ∧
        demoDriver.sqlOpen "mysql" dsn world0.st = (.ok 1, s1) ∧
        demoDriver.dbPing 1 s1 = (none, s2) ∧
        (NewApp demoDriver envWithSecret world0).2.calls
          = world0.calls ++ [Call.sqlOpen "mysql" dsn, Call.dbPing] ∧
        (NewApp demoDriver envWithSecret world0).2.st = s2) ∧
    (NewApp demoDriver envWithSecret world0).2.calls
      = [Call.sqlOpen "mysql" "root:@tcp(127.0.0.1:3306)/demo_api?parseTime=true",
          Call.dbPing] :=
  ⟨(NewApp_requires_secret demoDriver envEmptySecret world0).1 (Or.inr rfl),
    (NewApp_requires_secret demoDriver envWithSecret world0).2
      { DB := 1, JWTSecret := "s3cret".toUTF8 } rfl,
    by decide⟩

end GoApi
